import Mathlib

/-
Shallow embedding of pkg/sqlite/sqlite.go (a Go binding around the SQLite 3
C library).  Calls into the C engine are modelled as oracle inputs: each
engine status code an operation reads (the return value of sqlite3_reset,
sqlite3_step, sqlite3_backup_step, sqlite3_errcode, a bind call, ...) is an
explicit parameter of the embedded function, and the engine-side effects an
operation issues (bind calls with their arguments, backup_finish, ...) are
part of the returned value.  Go os.Error values are modelled by OsError,
with nil modelled as none : Option OsError.
-/

set_option autoImplicit false

namespace GrumbleSqlite

/-- Model of a Go os.Error as produced by this package: either a sqlite
Errno status code (type Errno implements os.Error), or a free-text error
from os.NewError, or the distinguished os.EINVAL value. -/
inductive OsError where
  | errno (e : Int)
  | msg (s : String)
  | einval
deriving DecidableEq, Repr

/-- The errText map (sqlite.go lines 78-107): canonical text for each status
code, with the Go map zero value "" for unmapped codes. -/
def errText (e : Int) : String :=
  if e = 1 then "SQL error or missing database"
  else if e = 2 then "Internal logic error in SQLite"
  else if e = 3 then "Access permission denied"
  else if e = 4 then "Callback routine requested an abort"
  else if e = 5 then "The database file is locked"
  else if e = 6 then "A table in the database is locked"
  else if e = 7 then "A malloc() failed"
  else if e = 8 then "Attempt to write a readonly database"
  else if e = 9 then "Operation terminated by sqlite3_interrupt()*/"
  else if e = 10 then "Some kind of disk I/O error occurred"
  else if e = 11 then "The database disk image is malformed"
  else if e = 12 then "NOT USED. Table or record not found"
  else if e = 13 then "Insertion failed because database is full"
  else if e = 14 then "Unable to open the database file"
  else if e = 15 then "NOT USED. Database lock protocol error"
  else if e = 16 then "Database is empty"
  else if e = 17 then "The database schema changed"
  else if e = 18 then "String or BLOB exceeds size limit"
  else if e = 19 then "Abort due to constraint violation"
  else if e = 20 then "Data type mismatch"
  else if e = 21 then "Library used incorrectly"
  else if e = 22 then "Uses OS features not supported on host"
  else if e = 23 then "Authorization denied"
  else if e = 24 then "Auxiliary database format error"
  else if e = 25 then "2nd parameter to sqlite3_bind out of range"
  else if e = 26 then "File opened that is not a database file"
  else if e = 100 then "sqlite3_step() has another row ready"
  else if e = 101 then "sqlite3_step() has finished executing"
  else ""

/-- Errno.String (sqlite.go lines 41-47): canonical text, or the fallback
"errno N" when the map lookup returns the empty string. -/
def Errno.string (e : Int) : String :=
  let s := errText e
  if s = "" then "errno " ++ toString e else s

/-- Model of an open engine database handle (a non-nil *C.sqlite3): the
engine-side per-connection state this binding reads through it. -/
structure SqliteHandle where
  errmsg : String
deriving DecidableEq, Repr

/-- Conn (sqlite.go lines 122-124): db is nil (none) or an open handle. -/
structure Conn where
  db : Option SqliteHandle
deriving DecidableEq, Repr

/-- Conn.error (sqlite.go lines 109-120).  The Option Conn argument models
the Go pointer receiver: none stands for a nil *Conn, and some of a Conn
whose db is none stands for a closed connection; the source guard is
(c == nil || c.db == nil).  The engine diagnostic C.sqlite3_errmsg(c.db) is
the errmsg field of the open handle. -/
def Conn.error (c : Option Conn) (rv : Int) : Option OsError :=
  match c with
  | none => some (OsError.msg "nil sqlite database")
  | some cc =>
    match cc.db with
    | none => some (OsError.msg "nil sqlite database")
    | some h =>
      if rv = 0 then none
      else if rv = 21 then some (OsError.errno rv)
      else some (OsError.msg (Errno.string rv ++ ": " ++ h.errmsg))

/-- True when the Go guard (c == nil || c.db == nil) holds: nil pointer or
closed connection. -/
def closedConn : Option Conn → Bool
  | none => true
  | some cc => cc.db.isNone

/-- Backup (sqlite.go lines 166-169): sb is the backup handle (nil when
closed), dst and src are the two borrowed connections. -/
structure Backup where
  sb : Option Unit
  dst : Conn
  src : Conn
deriving DecidableEq, Repr

/-- Backup.Step (sqlite.go lines 171-177).  rv is the oracle value of
C.sqlite3_backup_step(b.sb, npage); ErrBusy = Errno 5, ErrLocked = Errno 6. -/
def Backup.Step (b : Backup) (npage : Int) (rv : Int) : Option OsError :=
  if rv = 0 ∨ rv = 5 ∨ rv = 6 then none
  else some (OsError.errno rv)

/-- Backup.Run (sqlite.go lines 188-201).  rvs is the oracle stream of
successive sqlite3_backup_step statuses (a finite observed prefix of the
engine behaviour) and ec the oracle value C.sqlite3_errcode(b.dst.db) reads
at loop exit.  Run loops until Step returns a non-nil error, so on a prefix
whose statuses never make Step fail the loop has not yet terminated: that
is the none result.  The progress sends on the channel and the sleeps are
I/O effects with no influence on the returned value and are not modelled. -/
def Backup.Run (b : Backup) (npage : Int) (rvs : List Int) (ec : Int) :
    Option (Option OsError) :=
  match rvs with
  | [] => none
  | rv :: rest =>
    match b.Step npage rv with
    | some _ => some (Conn.error (some b.dst) ec)
    | none => b.Run npage rest ec

/-- Backup.Close (sqlite.go lines 203-210).  Returns the os.Error result,
the updated Backup, and whether C.sqlite3_backup_finish was called. -/
def Backup.Close (b : Backup) : Option OsError × Backup × Bool :=
  match b.sb with
  | none => (some OsError.einval, b, false)
  | some _ => (none, { b with sb := none }, true)

/-- Stmt (sqlite.go lines 237-244).  stmt is the prepared-statement handle;
err is the error recorded by Next; t0 the preparation timestamp; sql the
original text; args the rendering of the last bound arguments. -/
structure Stmt where
  c : Conn
  stmt : Option Unit
  err : Option OsError
  t0 : Int
  sql : String
  args : String
deriving DecidableEq, Repr

/-- Conn.Prepare (sqlite.go lines 246-259).  prepRv is the oracle value of
C.sqlite3_prepare_v2 and t0 the oracle value of time.Nanoseconds().  The
third component records whether the engine was reached (any C call made on
the database handle): on the (c == nil || c.db == nil) guard it is false. -/
def Conn.Prepare (c : Option Conn) (cmd : String) (prepRv : Int) (t0 : Int) :
    Option Stmt × Option OsError × Bool :=
  match c with
  | none => (none, some (OsError.msg "nil sqlite database"), false)
  | some cc =>
    match cc.db with
    | none => (none, some (OsError.msg "nil sqlite database"), false)
    | some _ =>
      if prepRv ≠ 0 then (none, Conn.error (some cc) prepRv, true)
      else
        (some { c := cc, stmt := some (), err := none, t0 := t0,
                sql := cmd, args := "" },
         none, true)

/-- One value passed to the variadic Stmt.Exec.  Go dispatches on the
dynamic type; the three cases of the switch (sqlite.go lines 275-295) are
[]byte, bool, and the default case, whose fmt.Sprint rendering is carried
as a string (the rendering is the only thing the code reads from it). -/
inductive Value where
  | bytes (b : List UInt8)
  | boolean (b : Bool)
  | other (text : String)
deriving DecidableEq, Repr

/-- One bind call issued to the engine: my_bind_blob with its pointer
nil-ness, length and the pointed-to data, or my_bind_text with its text. -/
inductive BindEffect where
  | blob (nullPtr : Bool) (len : Nat) (data : List UInt8)
  | text (s : String)
deriving DecidableEq, Repr

/-- The Go fmt %v rendering of one Value, as it appears inside the argument
slice rendering recorded in s.args. -/
def renderValue : Value → String
  | .bytes b => "[" ++ " ".intercalate (b.map (fun x => toString x.toNat)) ++ "]"
  | .boolean b => if b then "true" else "false"
  | .other t => t

/-- fmt.Sprintf(" %v", args) on the argument slice (sqlite.go line 262). -/
def renderArgs (args : List Value) : String :=
  " [" ++ " ".intercalate (args.map renderValue) ++ "]"

/-- The "incorrect argument count" error of Stmt.Exec (sqlite.go line 270):
got is len(args), want is the bind-parameter count n. -/
def argCountError (got want : Nat) : OsError :=
  OsError.msg ("incorrect argument count for Stmt.Exec: have "
    ++ toString got ++ " want " ++ toString want)

/-- The bind loop of Stmt.Exec (sqlite.go lines 273-303).  i is the 0-based
loop index (the engine parameter index is i+1); bindRv i is the oracle
status of the i-th bind call.  A []byte argument binds a blob whose pointer
is nil exactly when the slice is empty; a bool binds the text "1" or "0";
anything else binds its fmt.Sprint text.  A nonzero bind status aborts the
loop after that bind call, returning s.c.error of the status. -/
def bindLoop (c : Conn) (i : Nat) (bindRv : Nat → Int) :
    List Value → Option OsError × List BindEffect
  | [] => (none, [])
  | v :: rest =>
    let eff : BindEffect :=
      match v with
      | .bytes b => .blob (b.length == 0) b.length b
      | .boolean b => .text (if b then "1" else "0")
      | .other t => .text t
    if bindRv i ≠ 0 then (Conn.error (some c) (bindRv i), [eff])
    else
      let r := bindLoop c (i + 1) bindRv rest
      (r.1, eff :: r.2)

/-- The full observable outcome of one Stmt.Exec call: the returned
os.Error, the updated Stmt value, whether C.sqlite3_reset was issued, and
the bind calls issued to the engine in order. -/
structure ExecResult where
  err : Option OsError
  stmt : Stmt
  resetIssued : Bool
  binds : List BindEffect
deriving DecidableEq, Repr

/-- Stmt.Exec (sqlite.go lines 261-305).  resetRv is the oracle value of
C.sqlite3_reset and paramCount the oracle value of
C.sqlite3_bind_parameter_count.  The source assigns s.args and issues the
reset before checking the argument count. -/
def Stmt.Exec (s : Stmt) (args : List Value) (resetRv : Int)
    (paramCount : Nat) (bindRv : Nat → Int) : ExecResult :=
  let s1 := { s with args := renderArgs args }
  if resetRv ≠ 0 then
    { err := Conn.error (some s1.c) resetRv, stmt := s1,
      resetIssued := true, binds := [] }
  else if paramCount ≠ args.length then
    { err := some (argCountError args.length paramCount), stmt := s1,
      resetIssued := true, binds := [] }
  else
    let r := bindLoop s1.c 0 bindRv args
    { err := r.1, stmt := s1, resetIssued := true, binds := r.2 }

/-- Stmt.Error (sqlite.go lines 307-309): the accessor for s.err. -/
def Stmt.Error (s : Stmt) : Option OsError := s.err

/-- Stmt.Next (sqlite.go lines 311-321).  rv is the oracle value of
C.sqlite3_step; Row = Errno 100, Done = Errno 101.  Returns the bool result
and the updated Stmt (s.err is assigned exactly when rv is neither). -/
def Stmt.Next (s : Stmt) (rv : Int) : Bool × Stmt :=
  if rv = 100 then (true, s)
  else if rv = 101 then (false, s)
  else (false, { s with err := Conn.error (some s.c) rv })

/-- Stmt.Reset (sqlite.go lines 323-326): issues C.sqlite3_reset, ignores
its status, touches no field of s, and returns nil. -/
def Stmt.Reset (s : Stmt) : Option OsError × Stmt := (none, s)

/-- Conn.Exec (sqlite.go lines 220-235): Prepare, then Stmt.Exec, then one
step that must report Done (101); any other step status is rendered through
c.error.  The deferred Finalize result is discarded by the source.  Returns
the os.Error and whether the engine was reached.  (Prepare never returns a
nil statement together with a nil error; that dead branch returns nil.) -/
def Conn.Exec (c : Option Conn) (cmd : String) (args : List Value)
    (prepRv t0 resetRv : Int) (paramCount : Nat) (bindRv : Nat → Int)
    (stepRv : Int) : Option OsError × Bool :=
  match Conn.Prepare c cmd prepRv t0 with
  | (none, e, touched) => (e, touched)
  | (some s, _, _) =>
    let r := s.Exec args resetRv paramCount bindRv
    match r.err with
    | some e => (some e, true)
    | none => if stepRv ≠ 101 then (Conn.error c stepRv, true) else (none, true)

/-- One mutating operation on a prepared statement, with its engine oracle
inputs.  scan is Stmt.Scan (sqlite.go lines 328-374): it writes only
through its output pointers and never assigns to any field of the
receiver, so its effect on the Stmt value is the identity. -/
inductive StmtOp where
  | next (rv : Int)
  | reset
  | exec (args : List Value) (resetRv : Int) (paramCount : Nat) (bindRv : Nat → Int)
  | scan

/-- The Stmt value after one operation. -/
def Stmt.apply (s : Stmt) : StmtOp → Stmt
  | .next rv => (s.Next rv).2
  | .reset => s.Reset.2
  | .exec args resetRv paramCount bindRv =>
      (s.Exec args resetRv paramCount bindRv).stmt
  | .scan => s

/-- The engine contract under which an operation runs: sqlite3_step never
reports status 0, so a next operation carries a nonzero status.  The other
operations are unrestricted. -/
def StmtOp.stepOk : StmtOp → Bool
  | .next rv => rv != 0
  | _ => true

/-! Helper lemmas and concrete example values (shared across claims). -/

/-- A concrete open handle used by witnesses. -/
def hEx : SqliteHandle := { errmsg := "disk I/O error" }

/-- A concrete open connection used by witnesses. -/
def connEx : Conn := { db := some hEx }

/-- A concrete closed connection used by witnesses. -/
def connClosed : Conn := { db := none }

/-- A concrete backup session with an open handle, used by witnesses. -/
def bEx : Backup := { sb := some (), dst := connEx, src := connEx }

/-- A concrete prepared statement with no recorded error. -/
def stmtEx : Stmt :=
  { c := connEx, stmt := some (), err := none, t0 := 0,
    sql := "select a from t", args := "" }

/-- A concrete prepared statement carrying a recorded error. -/
def stmtErrEx : Stmt :=
  { stmtEx with err := some (OsError.errno 21) }

/-- For a nonzero status the rendering path always produces an error: the
nil-database message, the bare misuse code, or the text-plus-diagnostic
message. -/
theorem conn_error_ne_none (c : Option Conn) (rv : Int) (h : rv ≠ 0) :
    Conn.error c rv ≠ none := by
  rcases c with _ | cc
  · simp [Conn.error]
  · rcases hdb : cc.db with _ | hh
    · simp [Conn.error, hdb]
    · simp only [Conn.error, hdb]
      rw [if_neg h]
      split <;> simp

/-- When every bind call reports status 0, the bind loop succeeds and
issues exactly one bind per argument, dispatched on the argument kind. -/
theorem bindLoop_all_ok (c : Conn) (bindRv : Nat → Int)
    (hall : ∀ j, bindRv j = 0) :
    ∀ (vals : List Value) (i : Nat),
      bindLoop c i bindRv vals =
        (none, vals.map (fun v =>
          match v with
          | .bytes b => BindEffect.blob (b.length == 0) b.length b
          | .boolean b => BindEffect.text (if b then "1" else "0")
          | .other t => BindEffect.text t)) := by
  intro vals
  induction vals with
  | nil => intro i; rfl
  | cons v rest ih =>
    intro i
    simp only [bindLoop, hall i, ne_eq, not_true_eq_false, if_false,
      ite_false, List.map_cons]
    simp [ih (i + 1)]

end GrumbleSqlite

namespace GrumbleSqlite

/-- C1: Conn.error is a full case analysis on the receiver and the status:
a nil or closed connection always yields the distinguished "nil sqlite
database" error; on an open connection status 0 yields no error, status 21
yields the bare Errno with no diagnostic suffix, and every other status
yields "<canonical text>: <engine diagnostic message>". -/
theorem C1_conn_error_cases (c : Option Conn) (rv : Int) :
    (closedConn c = true →
      Conn.error c rv = some (OsError.msg "nil sqlite database")) ∧
    (∀ cc h, c = some cc → cc.db = some h →
      (rv = 0 → Conn.error c rv = none) ∧
      (rv = 21 → Conn.error c rv = some (OsError.errno 21)) ∧
      (rv ≠ 0 → rv ≠ 21 →
        Conn.error c rv =
          some (OsError.msg (Errno.string rv ++ ": " ++ h.errmsg)))) := by
  constructor
  · intro hc
    rcases c with _ | cc
    · rfl
    · rcases hdb : cc.db with _ | hh
      · simp [Conn.error, hdb]
      · simp [closedConn, hdb] at hc
  · rintro cc h rfl hdb
    refine ⟨fun h0 => ?_, fun h21 => ?_, fun h0 h21 => ?_⟩
    · simp [Conn.error, hdb, h0]
    · simp [Conn.error, hdb, h21]
    · simp [Conn.error, hdb, h0, h21]

/-- Witness for C1 at concrete inputs: a closed connection, and an open
connection at statuses 0, 21 and 10. -/
theorem C1_conn_error_cases_witness :
    (Conn.error (some connClosed) 10 = some (OsError.msg "nil sqlite database")) ∧
    (Conn.error (some connEx) 0 = none) ∧
    (Conn.error (some connEx) 21 = some (OsError.errno 21)) ∧
    (Conn.error (some connEx) 10 =
      some (OsError.msg (Errno.string 10 ++ ": " ++ hEx.errmsg))) := by
  refine ⟨(C1_conn_error_cases (some connClosed) 10).1 (by decide), ?_, ?_, ?_⟩
  · exact ((C1_conn_error_cases (some connEx) 0).2 connEx hEx rfl rfl).1 rfl
  · exact ((C1_conn_error_cases (some connEx) 21).2 connEx hEx rfl rfl).2.1 rfl
  · exact ((C1_conn_error_cases (some connEx) 10).2 connEx hEx rfl rfl).2.2
      (by decide) (by decide)

/-- C6: Backup.Step returns success exactly on status 0, busy (5) and
locked (6), regardless of the page-count argument; every other status
yields the Errno error. -/
theorem C6_backup_step_cases (b : Backup) (npage rv : Int) :
    ((rv = 0 ∨ rv = 5 ∨ rv = 6) → b.Step npage rv = none) ∧
    (¬(rv = 0 ∨ rv = 5 ∨ rv = 6) →
      b.Step npage rv = some (OsError.errno rv) ∧ b.Step npage rv ≠ none) := by
  constructor
  · intro h; simp [Backup.Step, h]
  · intro h; simp [Backup.Step, h]

/-- Witness for C6: busy status 5 succeeds and status 7 fails, at two
different page counts. -/
theorem C6_backup_step_cases_witness :
    bEx.Step 1 5 = none ∧ bEx.Step (-1) 7 = some (OsError.errno 7) := by
  refine ⟨(C6_backup_step_cases bEx 1 5).1 (by decide), ?_⟩
  exact ((C6_backup_step_cases bEx (-1) 7).2 (by decide)).1

/-- C7: closing a Backup twice: the first Close succeeds, releases the
handle exactly once (backup_finish called) and clears it; the second Close
returns os.EINVAL and does not call backup_finish again. -/
theorem C7_backup_close_twice (b : Backup) (h : b.sb.isSome = true) :
    b.Close.1 = none ∧
    b.Close.2.2 = true ∧
    b.Close.2.1.sb = none ∧
    b.Close.2.1.Close.1 = some OsError.einval ∧
    b.Close.2.1.Close.2.2 = false := by
  rcases hsb : b.sb with _ | u
  · rw [hsb] at h; simp at h
  · simp [Backup.Close, hsb]

/-- Witness for C7 on a concrete open backup session. -/
theorem C7_backup_close_twice_witness :
    bEx.Close.1 = none ∧
    bEx.Close.2.2 = true ∧
    bEx.Close.2.1.sb = none ∧
    bEx.Close.2.1.Close.1 = some OsError.einval ∧
    bEx.Close.2.1.Close.2.2 = false :=
  C7_backup_close_twice bEx (by decide)

/-- C2: on any observed prefix of backup-step statuses, Run terminates
exactly when some status makes Step return a non-nil error, and whenever it
terminates its return value is re-derived from the destination connection
and its current engine error code (the oracle ec read at loop exit), not
taken from the error Step returned. -/
theorem C2_backup_run (b : Backup) (npage : Int) (rvs : List Int) (ec : Int) :
    ((b.Run npage rvs ec).isSome = true ↔
      ∃ rv ∈ rvs, (b.Step npage rv).isSome = true) ∧
    (∀ r, b.Run npage rvs ec = some r → r = Conn.error (some b.dst) ec) := by
  induction rvs with
  | nil => simp [Backup.Run]
  | cons rv rest ih =>
    constructor
    · simp only [Backup.Run, List.mem_cons]
      rcases hstep : b.Step npage rv with _ | e
      · rw [ih.1]
        constructor
        · rintro ⟨x, hx, hsome⟩
          exact ⟨x, Or.inr hx, hsome⟩
        · rintro ⟨x, hx | hx, hsome⟩
          · rw [hx, hstep] at hsome; simp at hsome
          · exact ⟨x, hx, hsome⟩
      · simp only [Option.isSome_some, true_iff]
        exact ⟨rv, Or.inl rfl, by rw [hstep]; rfl⟩
    · intro r hr
      simp only [Backup.Run] at hr
      rcases hstep : b.Step npage rv with _ | e
      · rw [hstep] at hr
        exact ih.2 r hr
      · rw [hstep] at hr
        exact (Option.some_inj.mp hr).symm

/-- Witness for C2: statuses [0, 7] (one successful step, then an error),
exit error code 3: the loop terminates and the returned value is the
rendering of code 3 on the destination connection. -/
theorem C2_backup_run_witness :
    (bEx.Run 1 [0, 7] 3).isSome = true ∧
    Conn.error (some bEx.dst) 3 = Conn.error (some bEx.dst) 3 := by
  have h := C2_backup_run bEx 1 [0, 7] 3
  refine ⟨h.1.mpr ⟨7, by decide, by decide⟩, ?_⟩
  exact h.2 (Conn.error (some bEx.dst) 3) (by decide)

/-- C3: Stmt.Next on step status 100 (row available) returns true and
records nothing; on 101 (finished) returns false and records nothing; on
any other status returns false and records the rendered error, retrievable
via the Error accessor, and that recorded error is non-nil for every
nonzero such status. -/
theorem C3_stmt_next_cases (s : Stmt) (rv : Int) :
    (rv = 100 → s.Next rv = (true, s)) ∧
    (rv = 101 → s.Next rv = (false, s)) ∧
    (rv ≠ 100 → rv ≠ 101 →
      (s.Next rv).1 = false ∧
      (s.Next rv).2.Error = Conn.error (some s.c) rv ∧
      (rv ≠ 0 → (s.Next rv).2.Error ≠ none)) := by
  refine ⟨fun h100 => ?_, fun h101 => ?_, fun h100 h101 => ?_⟩
  · simp [Stmt.Next, h100]
  · simp [Stmt.Next, h101]
  · refine ⟨?_, ?_, fun h0 => ?_⟩
    · simp [Stmt.Next, h100, h101]
    · simp [Stmt.Next, Stmt.Error, h100, h101]
    · simp only [Stmt.Next, h100, h101, if_false, ite_false]
      exact conn_error_ne_none (some s.c) rv h0

/-- Witness for C3 at statuses 100, 101 and 1 on a concrete statement. -/
theorem C3_stmt_next_cases_witness :
    stmtEx.Next 100 = (true, stmtEx) ∧
    stmtEx.Next 101 = (false, stmtEx) ∧
    ((stmtEx.Next 1).1 = false ∧
      (stmtEx.Next 1).2.Error = Conn.error (some stmtEx.c) 1 ∧
      (stmtEx.Next 1).2.Error ≠ none) := by
  have h := C3_stmt_next_cases stmtEx 1
  have h3 := h.2.2 (by decide) (by decide)
  exact ⟨(C3_stmt_next_cases stmtEx 100).1 rfl,
    (C3_stmt_next_cases stmtEx 101).2.1 rfl,
    h3.1, h3.2.1, h3.2.2 (by decide)⟩

/-- C4: whenever the bind-parameter count of the compiled statement differs
from the number of supplied arguments (and the reset reports status 0, as
it does on a healthy statement), Stmt.Exec returns the distinguished
argument-count-mismatch error. -/
theorem C4_exec_arg_count_mismatch (s : Stmt) (args : List Value)
    (paramCount : Nat) (bindRv : Nat → Int) (h : paramCount ≠ args.length) :
    (s.Exec args 0 paramCount bindRv).err =
      some (argCountError args.length paramCount) := by
  simp [Stmt.Exec, h]

/-- Witness for C4: two arguments against one expected parameter. -/
theorem C4_exec_arg_count_mismatch_witness :
    (stmtEx.Exec [Value.boolean true, Value.other "5"] 0 1 (fun _ => 0)).err =
      some (argCountError 2 1) :=
  C4_exec_arg_count_mismatch stmtEx [Value.boolean true, Value.other "5"] 1
    (fun _ => 0) (by decide)

/-- C5: when the argument count matches and every bind reports status 0,
Stmt.Exec issues exactly one bind per argument, in order, dispatched on the
runtime kind of the argument: a byte sequence becomes a blob bind whose
pointer is null exactly when the sequence is empty (with length 0); a
boolean becomes a text bind of "1" or "0"; any other value becomes a text
bind of its default rendering. -/
theorem C5_exec_bind_dispatch (s : Stmt) (args : List Value)
    (bindRv : Nat → Int) (hall : ∀ j, bindRv j = 0) :
    (s.Exec args 0 args.length bindRv).binds =
      args.map (fun v =>
        match v with
        | .bytes b => BindEffect.blob (b.length == 0) b.length b
        | .boolean b => BindEffect.text (if b then "1" else "0")
        | .other t => BindEffect.text t) := by
  simp only [Stmt.Exec, ne_eq, not_true_eq_false, if_false, ite_false,
    not_false_eq_true, if_true]
  rw [bindLoop_all_ok _ bindRv hall args 0]

/-- Witness for C5: an empty byte sequence, a nonempty one, booleans and a
default-rendered value, all bound with status 0. -/
theorem C5_exec_bind_dispatch_witness :
    (stmtEx.Exec [Value.bytes [], Value.bytes [7, 9], Value.boolean true,
        Value.boolean false, Value.other "42"] 0 5 (fun _ => 0)).binds =
      [BindEffect.blob true 0 [], BindEffect.blob false 2 [7, 9],
        BindEffect.text "1", BindEffect.text "0", BindEffect.text "42"] := by
  have h := C5_exec_bind_dispatch stmtEx
    [Value.bytes [], Value.bytes [7, 9], Value.boolean true,
      Value.boolean false, Value.other "42"] (fun _ => 0) (fun _ => rfl)
  exact h

/-- C8: on a nil or closed connection, Prepare returns the distinguished
"nil sqlite database" error without reaching the engine, and Conn.Exec
(which starts with Prepare) does the same, for every SQL text, argument
list and engine-oracle values. -/
theorem C8_closed_conn_prepare_exec (c : Option Conn) (cmd : String)
    (args : List Value) (prepRv t0 resetRv : Int) (paramCount : Nat)
    (bindRv : Nat → Int) (stepRv : Int) (h : closedConn c = true) :
    Conn.Prepare c cmd prepRv t0 =
      (none, some (OsError.msg "nil sqlite database"), false) ∧
    Conn.Exec c cmd args prepRv t0 resetRv paramCount bindRv stepRv =
      (some (OsError.msg "nil sqlite database"), false) := by
  have hp : Conn.Prepare c cmd prepRv t0 =
      (none, some (OsError.msg "nil sqlite database"), false) := by
    rcases c with _ | cc
    · rfl
    · rcases hdb : cc.db with _ | hh
      · simp [Conn.Prepare, hdb]
      · simp [closedConn, hdb] at h
  refine ⟨hp, ?_⟩
  simp [Conn.Exec, hp]

/-- Witness for C8: a closed connection with a concrete command. -/
theorem C8_closed_conn_prepare_exec_witness :
    Conn.Prepare (some connClosed) "select 1" 0 0 =
      (none, some (OsError.msg "nil sqlite database"), false) ∧
    Conn.Exec (some connClosed) "select 1" [] 0 0 0 0 (fun _ => 0) 101 =
      (some (OsError.msg "nil sqlite database"), false) :=
  C8_closed_conn_prepare_exec (some connClosed) "select 1" [] 0 0 0 0
    (fun _ => 0) 101 (by decide)

/-- C9: when Stmt.Exec fails with the argument-count mismatch (reset status
0, count differing from the argument count), the failure is not atomic: the
engine reset has already been issued and the recorded argument string used
by SQL() has already been overwritten with the rendering of the new
arguments (the rest of the Stmt is unchanged). -/
theorem C9_exec_mismatch_not_atomic (s : Stmt) (args : List Value)
    (paramCount : Nat) (bindRv : Nat → Int) (h : paramCount ≠ args.length) :
    (s.Exec args 0 paramCount bindRv).err =
      some (argCountError args.length paramCount) ∧
    (s.Exec args 0 paramCount bindRv).resetIssued = true ∧
    (s.Exec args 0 paramCount bindRv).stmt =
      { s with args := renderArgs args } := by
  refine ⟨?_, ?_, ?_⟩ <;> simp [Stmt.Exec, h]

/-- Witness for C9: one boolean argument against two expected parameters on
a statement whose previously recorded argument string is nonempty. -/
theorem C9_exec_mismatch_not_atomic_witness :
    ((stmtErrEx.Exec [Value.boolean true] 0 2 (fun _ => 0)).err =
      some (argCountError 1 2)) ∧
    ((stmtErrEx.Exec [Value.boolean true] 0 2 (fun _ => 0)).resetIssued = true) ∧
    ((stmtErrEx.Exec [Value.boolean true] 0 2 (fun _ => 0)).stmt =
      { stmtErrEx with args := renderArgs [Value.boolean true] }) :=
  C9_exec_mismatch_not_atomic stmtErrEx [Value.boolean true] 2 (fun _ => 0)
    (by decide)

/-- C10: a recorded statement error is sticky.  Once s.err is non-nil, no
subsequent operation — Next (under the engine contract that step never
reports status 0), Reset, Exec, or Scan — sets it back to nil; and a later
Next that hits the terminal status 101 returns false leaving the earlier
recorded error unchanged and observable through the Error accessor. -/
theorem C10_stmt_error_sticky (s : Stmt) (e : OsError) (op : StmtOp)
    (herr : s.err = some e) (hok : op.stepOk = true) :
    (s.apply op).err ≠ none ∧
    (s.Next 101).1 = false ∧ (s.Next 101).2.Error = some e := by
  refine ⟨?_, by simp [Stmt.Next], by simp [Stmt.Next, Stmt.Error, herr]⟩
  cases op with
  | next rv =>
    simp only [StmtOp.stepOk, bne_iff_ne, ne_eq] at hok
    by_cases h100 : rv = 100
    · simp [Stmt.apply, Stmt.Next, h100, herr]
    · by_cases h101 : rv = 101
      · simp [Stmt.apply, Stmt.Next, h100, h101, herr]
      · simp only [Stmt.apply, Stmt.Next, h100, h101, if_false, ite_false]
        exact conn_error_ne_none (some s.c) rv hok
  | reset => simp [Stmt.apply, Stmt.Reset, herr]
  | exec args resetRv paramCount bindRv =>
    simp only [Stmt.apply, Stmt.Exec]
    split
    · simp [herr]
    · split <;> simp [herr]
  | scan => simp [Stmt.apply, herr]

/-- Witness for C10: a statement with a recorded misuse error, stepped with
an Exec operation and then observed at the terminal status. -/
theorem C10_stmt_error_sticky_witness :
    ((stmtErrEx.apply (StmtOp.exec [] 0 0 (fun _ => 0))).err ≠ none) ∧
    (stmtErrEx.Next 101).1 = false ∧
    (stmtErrEx.Next 101).2.Error = some (OsError.errno 21) :=
  C10_stmt_error_sticky stmtErrEx (OsError.errno 21)
    (StmtOp.exec [] 0 0 (fun _ => 0)) rfl rfl

end GrumbleSqlite
